import Mathlib

/-
Shallow embedding of the battery_regulator Home Assistant custom component:
the pure regulation engine (custom_components/battery_regulator/regulator.py),
the coordinator tick state machine and command retry loop
(custom_components/battery_regulator/coordinator.py), and the default
configuration values (custom_components/battery_regulator/const.py).

Python floats are modelled as exact rationals (ℚ), Python machine ints as ℤ.
Python int() truncates toward zero; Python round() rounds half to even.
-/

/-- Python int() applied to a number: truncation toward zero. -/
def pyTrunc (q : ℚ) : ℤ := if 0 ≤ q then ⌊q⌋ else ⌈q⌉

/-- Python round() to an integer: round half to even. -/
def pyRound (q : ℚ) : ℤ :=
  if q - (⌊q⌋ : ℚ) < 1 / 2 then ⌊q⌋
  else if (1 / 2 : ℚ) < q - (⌊q⌋ : ℚ) then ⌊q⌋ + 1
  else if ⌊q⌋ % 2 = 0 then ⌊q⌋ else ⌊q⌋ + 1

/-- Python str() of a bool, as used in f-string interpolation. -/
def pyBoolStr (b : Bool) : String := if b then "True" else "False"

/-- regulator.Mode (StrEnum with members AUTO, CHARGE_SURPLUS, CHARGE_OFF_PEAK, DISCHARGE). -/
inductive Mode where
  | AUTO
  | CHARGE_SURPLUS
  | CHARGE_OFF_PEAK
  | DISCHARGE
deriving DecidableEq

/-- regulator.State: the per-tick sensor snapshot. -/
structure State where
  grid_power : ℤ
  solar_production : ℤ
  battery_soc : ℤ
  battery_power_abs : ℤ
  is_off_peak : Bool
  hour : ℤ
  minute : ℤ
  solar_forecast_kwh : ℚ
  solar_remaining_kwh : ℚ
  tempo_color : Option String
deriving DecidableEq

/-- regulator.Config: static configuration. -/
structure Config where
  battery_capacity_wh : ℤ
  base_load_w : ℤ
  off_peak_charge_rate : ℤ
  max_charge_rate : ℤ
  max_discharge_rate : ℤ
  surplus_threshold : ℤ
  surplus_soc_max : ℤ
  discharge_min_power : ℤ
deriving DecidableEq

/-- regulator.Decision: the output of one evaluation. -/
structure Decision where
  mode : Mode
  power : ℤ
  reason : String
deriving DecidableEq

/-- regulator.py hardcoded constant. -/
def OFF_PEAK_CHARGE_START_HOUR : ℤ := 2

/-- regulator.py hardcoded constant. -/
def OFF_PEAK_CHARGE_END_HOUR : ℤ := 6

/-- regulator.py hardcoded constant. -/
def SURPLUS_STOP_GRID_THRESHOLD : ℤ := -50

/-- regulator.py hardcoded constant. -/
def DISCHARGE_GRID_OFFSET : ℤ := 20

/-- regulator.py hardcoded constant. -/
def CHARGE_SURPLUS_OFFSET : ℤ := 100

/-- regulator.compute_target_soc: target SOC for off-peak charging. -/
def compute_target_soc (tempo_color : Option String) (solar_forecast_kwh : ℚ) : ℤ :=
  if tempo_color = some "Rouge" ∨ tempo_color = some "Blanc" then
    max (pyTrunc (100 - solar_forecast_kwh * 2)) 60
  else if tempo_color = some "Bleu" then
    max (pyTrunc (60 - solar_forecast_kwh * 2.5)) 20
  else
    max (pyTrunc (80 - solar_forecast_kwh * 3)) 20

/-- regulator.compute_reserve_soc: minimum SOC to keep for peak loads. -/
def compute_reserve_soc (is_off_peak : Bool) (hour minute base_load_w : ℤ)
    (solar_remaining_kwh : ℚ) (battery_capacity_wh : ℤ) : ℤ :=
  if is_off_peak = true then 10
  else
    let hours_to_off_peak : ℚ := max (22 - ((hour : ℚ) + (minute : ℚ) / 60)) 0
    let energy_needed_wh : ℚ := hours_to_off_peak * (base_load_w : ℚ)
    let solar_remaining_wh : ℚ := solar_remaining_kwh * 1000
    let energy_from_battery_wh : ℚ := max (energy_needed_wh - solar_remaining_wh) 0
    let reserve : ℤ := pyRound (energy_from_battery_wh / (battery_capacity_wh : ℚ) * 100)
    max reserve 10

/-- regulator._signed_battery_power: signed battery power based on current mode. -/
def signed_battery_power (mode : Mode) (power_abs : ℤ) : ℤ :=
  if mode = Mode.CHARGE_SURPLUS ∨ mode = Mode.CHARGE_OFF_PEAK then -power_abs
  else if mode = Mode.DISCHARGE then power_abs
  else 0

/-- regulator._clamp. -/
def clamp (value min_val max_val : ℤ) : ℤ := max min_val (min max_val value)

/-- regulator.regulate: the main regulation logic, rules 1-8 in source order.
Rule 4 in the source computes the candidate power inside the rule body and
falls through to the later rules when the candidate is below
discharge_min_power; this is expressed here as a single combined condition. -/
def regulate (state : State) (current_mode : Mode) (config : Config) : Decision :=
  let target_soc := compute_target_soc state.tempo_color state.solar_forecast_kwh
  let reserve_soc := compute_reserve_soc state.is_off_peak state.hour state.minute
    config.base_load_w state.solar_remaining_kwh config.battery_capacity_wh
  let bat_signed := signed_battery_power current_mode state.battery_power_abs
  let surplus_threshold := config.surplus_threshold
  let min_charge := -config.max_charge_rate
  let max_charge := -(min 100 surplus_threshold)
  if state.is_off_peak = true ∧ OFF_PEAK_CHARGE_START_HOUR ≤ state.hour ∧
      state.hour < OFF_PEAK_CHARGE_END_HOUR ∧ state.battery_soc < target_soc then
    { mode := Mode.CHARGE_OFF_PEAK
      power := -config.off_peak_charge_rate
      reason := "Off-peak charge: SOC=" ++ toString state.battery_soc ++ "% < target=" ++
        toString target_soc ++ "%" }
  else if current_mode = Mode.CHARGE_OFF_PEAK ∧ state.is_off_peak = true ∧
      target_soc ≤ state.battery_soc then
    { mode := Mode.AUTO
      power := 0
      reason := "Off-peak charge complete: SOC=" ++ toString state.battery_soc ++
        "% >= target=" ++ toString target_soc ++ "%" }
  else if state.grid_power < -surplus_threshold ∧
      surplus_threshold < state.solar_production ∧
      state.battery_soc < config.surplus_soc_max then
    { mode := Mode.CHARGE_SURPLUS
      power := clamp (state.grid_power + bat_signed + CHARGE_SURPLUS_OFFSET) min_charge max_charge
      reason := "Surplus charge: grid=" ++ toString state.grid_power ++ "W, bat=" ++
        toString bat_signed ++ "W, power=" ++
        toString (clamp (state.grid_power + bat_signed + CHARGE_SURPLUS_OFFSET)
          min_charge max_charge) ++ "W" }
  else if (state.is_off_peak = false ∧ reserve_soc < state.battery_soc ∧
      current_mode ≠ Mode.CHARGE_SURPLUS ∧
      (DISCHARGE_GRID_OFFSET < state.grid_power ∨ current_mode = Mode.DISCHARGE) ∧
      config.discharge_min_power ≤ state.battery_power_abs) ∧
      config.discharge_min_power ≤
        clamp (state.grid_power + bat_signed - DISCHARGE_GRID_OFFSET) 0
          config.max_discharge_rate then
    { mode := Mode.DISCHARGE
      power := clamp (state.grid_power + bat_signed - DISCHARGE_GRID_OFFSET) 0
        config.max_discharge_rate
      reason := "Peak discharge: grid=" ++ toString state.grid_power ++ "W, bat=" ++
        toString bat_signed ++ "W, SOC=" ++ toString state.battery_soc ++ "%, reserve=" ++
        toString reserve_soc ++ "%, power=" ++
        toString (clamp (state.grid_power + bat_signed - DISCHARGE_GRID_OFFSET) 0
          config.max_discharge_rate) ++ "W" }
  else if current_mode = Mode.CHARGE_SURPLUS ∧
      SURPLUS_STOP_GRID_THRESHOLD ≤ state.grid_power then
    { mode := Mode.AUTO
      power := 0
      reason := "Surplus gone: grid=" ++ toString state.grid_power ++ "W >= " ++
        toString SURPLUS_STOP_GRID_THRESHOLD ++ "W" }
  else if current_mode = Mode.DISCHARGE ∧ (state.is_off_peak = true ∨
      state.battery_soc ≤ reserve_soc ∨
      state.battery_power_abs < config.discharge_min_power) then
    { mode := Mode.AUTO
      power := 0
      reason := "Discharge stop: off_peak=" ++ pyBoolStr state.is_off_peak ++ ", SOC=" ++
        toString state.battery_soc ++ "% <= reserve=" ++ toString reserve_soc ++
        "%, power_abs=" ++ toString state.battery_power_abs ++ "W" }
  else if current_mode = Mode.CHARGE_OFF_PEAK ∧ state.is_off_peak = false then
    { mode := Mode.AUTO
      power := 0
      reason := "Off-peak charge stop: peak started" }
  else
    { mode := current_mode
      power := if current_mode = Mode.AUTO then 0
        else state.battery_power_abs *
          (if current_mode = Mode.CHARGE_OFF_PEAK ∨ current_mode = Mode.CHARGE_SURPLUS
            then -1 else 1)
      reason := "No change" }

/-- const.py DEFAULT_* battery parameters assembled into a Config, as the
coordinator does when no option overrides them. -/
def defaultConfig : Config :=
  { battery_capacity_wh := 5120
    base_load_w := 400
    off_peak_charge_rate := 1500
    max_charge_rate := 2500
    max_discharge_rate := 2500
    surplus_threshold := 100
    surplus_soc_max := 95
    discharge_min_power := 50 }

/-- const.MIN_MODE_CHANGE_SECONDS, as a duration in seconds. -/
def MIN_MODE_CHANGE_SECONDS : ℚ := 60

/-- const.RETRY_DELAY_SECONDS. -/
def RETRY_DELAY_SECONDS : ℕ := 5

/-- const.RETRY_MAX_ATTEMPTS. -/
def RETRY_MAX_ATTEMPTS : ℕ := 3

/-- The mutable coordinator state owned by BatteryRegulatorCoordinator:
current mode, last commanded power and the wall-clock instant (in seconds)
of the last committed mode change. -/
structure CoordState where
  current_mode : Mode
  last_commanded_power : ℤ
  last_mode_change_time : ℚ
deriving DecidableEq

/-- Observable outcome of one BatteryRegulatorCoordinator._async_update_data
tick: the coordinator state afterwards, the Decision returned to the caller,
whether _send_command_with_retry was invoked, and whether _cancel_retry was
invoked (cancelling any pending retry task). -/
structure TickResult where
  state : CoordState
  returned : Decision
  command_sent : Bool
  retry_cancelled : Bool
deriving DecidableEq

/-- BatteryRegulatorCoordinator._async_update_data on the state it owns:
run regulate on the snapshot, gate mode transitions behind the cooldown,
commit power-only adjustments immediately, and do nothing when neither the
mode nor the power changed. `now` is the current wall clock in seconds. -/
def update_data (s : CoordState) (st : State) (cfg : Config) (now : ℚ) : TickResult :=
  let decision := regulate st s.current_mode cfg
  if decision.mode ≠ s.current_mode then
    if now - s.last_mode_change_time < MIN_MODE_CHANGE_SECONDS then
      { state := s
        returned := { mode := s.current_mode
                      power := s.last_commanded_power
                      reason := "cooldown (" ++ decision.reason ++ ")" }
        command_sent := false
        retry_cancelled := false }
    else
      { state := { current_mode := decision.mode
                   last_commanded_power := decision.power
                   last_mode_change_time := now }
        returned := decision
        command_sent := true
        retry_cancelled := true }
  else if decision.power ≠ s.last_commanded_power then
    { state := { current_mode := s.current_mode
                 last_commanded_power := decision.power
                 last_mode_change_time := s.last_mode_change_time }
      returned := decision
      command_sent := true
      retry_cancelled := true }
  else
    { state := s
      returned := decision
      command_sent := false
      retry_cancelled := false }

/-- BatteryRegulatorCoordinator._send_command_with_retry: the controller call
either succeeds or raises (modelled as Except); the wrapper catches every
exception and instead reports whether a retry task was scheduled. -/
def send_command_with_retry (send_result : Except String Unit) : Except String Bool :=
  match send_result with
  | Except.ok _ => Except.ok false
  | Except.error _ => Except.ok true

/-- One attempt made by BatteryRegulatorCoordinator._retry_loop: its 1-based
index, the sleep that preceded it, the coordinator mode/power read at retry
time, and whether the send succeeded. -/
structure RetryAttempt where
  attempt : ℕ
  delay_before : ℕ
  mode : Mode
  power : ℤ
  ok : Bool
deriving DecidableEq

/-- The attempts performed by _retry_loop starting at attempt number `attempt`
with `fuel` loop iterations remaining. `ok n` tells whether the send on
attempt n succeeds; `stAt n` is the coordinator (mode, power) read at attempt
n, which may differ between attempts because later ticks mutate the state. -/
def retry_loop_from (ok : ℕ → Bool) (stAt : ℕ → Mode × ℤ) : ℕ → ℕ → List RetryAttempt
  | _, 0 => []
  | attempt, fuel + 1 =>
    let a : RetryAttempt :=
      { attempt := attempt
        delay_before := RETRY_DELAY_SECONDS
        mode := (stAt attempt).1
        power := (stAt attempt).2
        ok := ok attempt }
    if ok attempt = true then [a] else a :: retry_loop_from ok stAt (attempt + 1) fuel

/-- BatteryRegulatorCoordinator._retry_loop: attempts 1..RETRY_MAX_ATTEMPTS,
stopping after the first success. -/
def retry_loop (ok : ℕ → Bool) (stAt : ℕ → Mode × ℤ) : List RetryAttempt :=
  retry_loop_from ok stAt 1 RETRY_MAX_ATTEMPTS

/-- Snapshot of the spec scenario "Surplus clamp": grid=-110, solar=200,
soc=50, power_abs=0, peak hours, no forecast data. -/
def surplusSnapLow : State :=
  { grid_power := -110, solar_production := 200, battery_soc := 50, battery_power_abs := 0
    is_off_peak := false, hour := 14, minute := 0, solar_forecast_kwh := 0
    solar_remaining_kwh := 0, tempo_color := none }

/-- Snapshot of the spec scenario "Surplus clamp upper": grid=-3000,
solar=4000, soc=50, power_abs=0. -/
def surplusSnapHigh : State :=
  { grid_power := -3000, solar_production := 4000, battery_soc := 50, battery_power_abs := 0
    is_off_peak := false, hour := 14, minute := 0, solar_forecast_kwh := 0
    solar_remaining_kwh := 0, tempo_color := none }

/-- Snapshot of the spec end-to-end scenario: grid=-443, solar=559, soc=52,
power_abs=8, off_peak=false, 14:00, forecast=9.124 kWh, remaining=3.668 kWh,
lowest tariff tier (Tempo Bleu). -/
def endToEndSnap : State :=
  { grid_power := -443, solar_production := 559, battery_soc := 52, battery_power_abs := 8
    is_off_peak := false, hour := 14, minute := 0, solar_forecast_kwh := 9.124
    solar_remaining_kwh := 3.668, tempo_color := some "Bleu" }






theorem pyTrunc_mono {x y : ℚ} (h : x ≤ y) : pyTrunc x ≤ pyTrunc y := by
  unfold pyTrunc
  split_ifs with hx hy hy2
  · exact Int.floor_le_floor h
  · exact absurd (hx.trans h) hy
  · have h1 : ⌈x⌉ ≤ 0 := Int.ceil_le.mpr (by exact_mod_cast (not_le.mp hx).le)
    have h2 : 0 ≤ ⌊y⌋ := Int.floor_nonneg.mpr hy2
    omega
  · exact Int.ceil_le_ceil h

theorem pyRound_zero : pyRound 0 = 0 := by
  unfold pyRound
  norm_num

theorem floor_of_1375_div_8 : ⌊(1375 : ℚ) / 8⌋ = 171 := by
  rw [show ((1375 : ℚ) / 8) = ((1375 : ℤ) : ℚ) / ((8 : ℕ) : ℚ) by norm_num,
    Rat.floor_intCast_div_natCast]
  decide

theorem pyRound_of_1375_div_8 : pyRound ((1375 : ℚ) / 8) = 172 := by
  unfold pyRound
  rw [floor_of_1375_div_8]
  norm_num

theorem reserve_midnight_eval : compute_reserve_soc false 0 0 400 0 5120 = 172 := by
  simp only [compute_reserve_soc]
  rw [if_neg (by decide)]
  rw [show max ((22 : ℚ) - (((0 : ℤ) : ℚ) + ((0 : ℤ) : ℚ) / 60)) 0 = 22 by
    rw [max_eq_left] <;> push_cast <;> norm_num]
  rw [show (22 : ℚ) * ((400 : ℤ) : ℚ) = 8800 by push_cast; norm_num]
  rw [show max ((8800 : ℚ) - 0 * 1000) 0 = 8800 by rw [max_eq_left] <;> norm_num]
  rw [show (8800 : ℚ) / ((5120 : ℤ) : ℚ) * 100 = 1375 / 8 by push_cast; norm_num]
  rw [pyRound_of_1375_div_8]
  decide

/-- Claim C4 counterexample: the input is_off_peak=false, hour=0, minute=0,
base_load_w=400, solar_remaining_kwh=0, battery_capacity_wh=5120 satisfies all
of the claim's hypotheses, yet compute_reserve_soc returns 172, above 100 —
the claimed range [10, 100] is violated (the code has no upper cap). -/
theorem reserve_soc_exceeds_100 :
    ((0 : ℤ) < 5120 ∧ (0 : ℤ) ≤ 400 ∧ (0 : ℚ) ≤ 0 ∧
      (0 : ℤ) ≤ 0 ∧ (0 : ℤ) ≤ 23 ∧ (0 : ℤ) ≤ 59) ∧
    compute_reserve_soc false 0 0 400 0 5120 = 172 ∧
    ¬(compute_reserve_soc false 0 0 400 0 5120 ≤ 100) :=
  ⟨⟨by decide, by decide, le_refl 0, by decide, by decide, by decide⟩,
   reserve_midnight_eval, by rw [reserve_midnight_eval]; decide⟩

/-- Claim C4 (amended): for every input with battery_capacity_wh > 0,
base_load_w ≥ 0, solar_remaining_kwh ≥ 0, hour in 0..23 and minute in 0..59,
compute_reserve_soc returns an integer ≥ 10 (there is no upper cap at 100). -/
theorem reserve_soc_lower_bound (iop : Bool) (hour minute base_load_w : ℤ)
    (solar : ℚ) (cap : ℤ) (hcap : 0 < cap) (hbl : 0 ≤ base_load_w) (hs : 0 ≤ solar)
    (hh1 : 0 ≤ hour) (hh2 : hour ≤ 23) (hm1 : 0 ≤ minute) (hm2 : minute ≤ 59) :
    10 ≤ compute_reserve_soc iop hour minute base_load_w solar cap := by
  unfold compute_reserve_soc
  split_ifs
  · exact le_refl 10
  · exact le_max_right _ _

theorem reserve_soc_lower_bound_witness :
    10 ≤ compute_reserve_soc false 0 0 400 0 5120 :=
  reserve_soc_lower_bound false 0 0 400 0 5120 (by decide) (by decide) (le_refl 0)
    (by decide) (by decide) (by decide) (by decide)

/-- Claim C5: compute_reserve_soc returns exactly 10 whenever is_off_peak is
true, for all other inputs; and with is_off_peak=false, hour=22, minute=30 it
also returns 10 (hours_to_off_peak clamps to 0), for all base_load_w ≥ 0,
solar_remaining_kwh ≥ 0, battery_capacity_wh > 0. -/
theorem reserve_soc_off_peak_and_late_evening :
    (∀ (hour minute base_load_w : ℤ) (solar : ℚ) (cap : ℤ),
      compute_reserve_soc true hour minute base_load_w solar cap = 10) ∧
    (∀ (base_load_w : ℤ) (solar : ℚ) (cap : ℤ),
      0 ≤ base_load_w → 0 ≤ solar → 0 < cap →
      compute_reserve_soc false 22 30 base_load_w solar cap = 10) := by
  constructor
  · intro hour minute base solar cap
    unfold compute_reserve_soc
    rw [if_pos rfl]
  · intro base solar cap hb hs hc
    unfold compute_reserve_soc
    rw [if_neg (by decide)]
    rw [show max ((22 : ℚ) - (((22 : ℤ) : ℚ) + ((30 : ℤ) : ℚ) / 60)) 0 = 0 by
      rw [max_eq_right] <;> push_cast <;> norm_num]
    dsimp only
    rw [zero_mul, zero_sub]
    rw [max_eq_right (neg_nonpos.mpr (mul_nonneg hs (by norm_num)))]
    rw [zero_div, zero_mul, pyRound_zero]
    decide

theorem reserve_soc_off_peak_and_late_evening_witness :
    compute_reserve_soc true 3 0 400 5 5120 = 10 ∧
    compute_reserve_soc false 22 30 400 (5 / 2) 5120 = 10 :=
  ⟨reserve_soc_off_peak_and_late_evening.1 3 0 400 5 5120,
   reserve_soc_off_peak_and_late_evening.2 400 (5 / 2) 5120 (by decide)
     (by norm_num) (by decide)⟩

/-- Claim C6: compute_target_soc is monotonically non-increasing in the
forecast for every tariff tier, and is floored at 60 for the two highest
tiers (Rouge, Blanc) and at 20 for the lowest tier (Bleu) and for an absent
or unknown tariff signal. -/
theorem target_soc_antitone_and_floored :
    (∀ (c : Option String) (f1 f2 : ℚ), 0 ≤ f1 → f1 ≤ f2 →
      compute_target_soc c f2 ≤ compute_target_soc c f1) ∧
    (∀ (c : Option String) (f : ℚ), 0 ≤ f →
      ((c = some "Rouge" ∨ c = some "Blanc") → 60 ≤ compute_target_soc c f) ∧
      (¬(c = some "Rouge" ∨ c = some "Blanc") → 20 ≤ compute_target_soc c f)) := by
  constructor
  · intro c f1 f2 _ h12
    unfold compute_target_soc
    split_ifs
    · exact max_le_max (pyTrunc_mono (by linarith)) le_rfl
    · exact max_le_max (pyTrunc_mono (by linarith)) le_rfl
    · exact max_le_max (pyTrunc_mono (by linarith)) le_rfl
  · intro c f _
    constructor
    · intro hc
      unfold compute_target_soc
      rw [if_pos hc]
      exact le_max_right _ _
    · intro hc
      unfold compute_target_soc
      rw [if_neg hc]
      split_ifs
      · exact le_max_right _ _
      · exact le_max_right _ _

theorem target_soc_antitone_and_floored_witness :
    compute_target_soc (some "Rouge") 1 ≤ compute_target_soc (some "Rouge") 0 ∧
    60 ≤ compute_target_soc (some "Rouge") 1 ∧
    20 ≤ compute_target_soc (some "Bleu") 1 ∧
    20 ≤ compute_target_soc none 1 :=
  ⟨target_soc_antitone_and_floored.1 (some "Rouge") 0 1 le_rfl (by norm_num),
   (target_soc_antitone_and_floored.2 (some "Rouge") 1 (by norm_num)).1 (Or.inl rfl),
   (target_soc_antitone_and_floored.2 (some "Bleu") 1 (by norm_num)).2 (by simp),
   (target_soc_antitone_and_floored.2 none 1 (by norm_num)).2 (by simp)⟩

/-- Claim C3: on a tick whose regulation decision changes the mode, a
transition attempted less than MIN_MODE_CHANGE_SECONDS after the last mode
change is suppressed (state untouched, no command, no retry cancellation, the
returned Decision carries the current mode and power with the reason tagged
"cooldown"), while a transition at 60 seconds or more is committed
(current_mode, last_commanded_power and last_mode_change_time updated, the
pending retry cancelled, the command issued). -/
theorem tick_cooldown_gate (s : CoordState) (st : State) (cfg : Config) (now : ℚ)
    (hm : (regulate st s.current_mode cfg).mode ≠ s.current_mode) :
    (now - s.last_mode_change_time < MIN_MODE_CHANGE_SECONDS →
      update_data s st cfg now =
        { state := s
          returned := { mode := s.current_mode
                        power := s.last_commanded_power
                        reason := "cooldown (" ++
                          (regulate st s.current_mode cfg).reason ++ ")" }
          command_sent := false
          retry_cancelled := false }) ∧
    (MIN_MODE_CHANGE_SECONDS ≤ now - s.last_mode_change_time →
      update_data s st cfg now =
        { state := { current_mode := (regulate st s.current_mode cfg).mode
                     last_commanded_power := (regulate st s.current_mode cfg).power
                     last_mode_change_time := now }
          returned := regulate st s.current_mode cfg
          command_sent := true
          retry_cancelled := true }) := by
  constructor
  · intro hlt
    simp only [update_data]
    rw [if_pos hm, if_pos hlt]
  · intro hge
    simp only [update_data]
    rw [if_pos hm, if_neg (not_lt.mpr hge)]

theorem tick_cooldown_gate_witness :
    (update_data ⟨Mode.AUTO, 0, 0⟩ surplusSnapLow defaultConfig 59 =
      ⟨⟨Mode.AUTO, 0, 0⟩,
       ⟨Mode.AUTO, 0,
        "cooldown (" ++ (regulate surplusSnapLow Mode.AUTO defaultConfig).reason ++ ")"⟩,
       false, false⟩) ∧
    (update_data ⟨Mode.AUTO, 0, 0⟩ surplusSnapLow defaultConfig 60 =
      ⟨⟨(regulate surplusSnapLow Mode.AUTO defaultConfig).mode,
        (regulate surplusSnapLow Mode.AUTO defaultConfig).power, 60⟩,
       regulate surplusSnapLow Mode.AUTO defaultConfig, true, true⟩) :=
  ⟨(tick_cooldown_gate ⟨Mode.AUTO, 0, 0⟩ surplusSnapLow defaultConfig 59 (by decide)).1
     (by norm_num [MIN_MODE_CHANGE_SECONDS]),
   (tick_cooldown_gate ⟨Mode.AUTO, 0, 0⟩ surplusSnapLow defaultConfig 60 (by decide)).2
     (by norm_num [MIN_MODE_CHANGE_SECONDS])⟩

/-- Claim C7: when the decision keeps the mode but changes the power, the new
power is committed immediately for every elapsed time (no cooldown), a
command is issued and last_mode_change_time is left unchanged; and
last_mode_change_time can change only on a committed mode transition. -/
theorem tick_power_only_commit :
    (∀ (s : CoordState) (st : State) (cfg : Config) (now : ℚ),
      (regulate st s.current_mode cfg).mode = s.current_mode →
      (regulate st s.current_mode cfg).power ≠ s.last_commanded_power →
      update_data s st cfg now =
        { state := { current_mode := s.current_mode
                     last_commanded_power := (regulate st s.current_mode cfg).power
                     last_mode_change_time := s.last_mode_change_time }
          returned := regulate st s.current_mode cfg
          command_sent := true
          retry_cancelled := true }) ∧
    (∀ (s : CoordState) (st : State) (cfg : Config) (now : ℚ),
      (update_data s st cfg now).state.last_mode_change_time ≠ s.last_mode_change_time →
      (regulate st s.current_mode cfg).mode ≠ s.current_mode ∧
      (update_data s st cfg now).command_sent = true) := by
  constructor
  · intro s st cfg now hmode hpow
    simp only [update_data]
    rw [if_neg (by simp [hmode]), if_pos hpow]
  · intro s st cfg now hne
    simp only [update_data] at hne ⊢
    split_ifs at hne ⊢ with h1 h2 h3
    · simp at hne
    · exact ⟨h1, by simp⟩
    · simp at hne
    · simp at hne

theorem tick_power_only_commit_witness :
    update_data ⟨Mode.CHARGE_SURPLUS, -300, 0⟩ endToEndSnap defaultConfig 10 =
      ⟨⟨Mode.CHARGE_SURPLUS,
        (regulate endToEndSnap Mode.CHARGE_SURPLUS defaultConfig).power, 0⟩,
       regulate endToEndSnap Mode.CHARGE_SURPLUS defaultConfig, true, true⟩ :=
  tick_power_only_commit.1 ⟨Mode.CHARGE_SURPLUS, -300, 0⟩ endToEndSnap defaultConfig 10
    (by decide) (by decide)

theorem retry_loop_unfold (ok : ℕ → Bool) (stAt : ℕ → Mode × ℤ) :
    retry_loop ok stAt =
      (if ok 1 = true then
        [⟨1, RETRY_DELAY_SECONDS, (stAt 1).1, (stAt 1).2, ok 1⟩]
      else ⟨1, RETRY_DELAY_SECONDS, (stAt 1).1, (stAt 1).2, ok 1⟩ ::
        (if ok 2 = true then
          [⟨2, RETRY_DELAY_SECONDS, (stAt 2).1, (stAt 2).2, ok 2⟩]
        else ⟨2, RETRY_DELAY_SECONDS, (stAt 2).1, (stAt 2).2, ok 2⟩ ::
          (if ok 3 = true then
            [⟨3, RETRY_DELAY_SECONDS, (stAt 3).1, (stAt 3).2, ok 3⟩]
          else [⟨3, RETRY_DELAY_SECONDS, (stAt 3).1, (stAt 3).2, ok 3⟩]))) := rfl

/-- Claim C8: an actuator failure is never propagated (the wrapper always
returns normally, merely reporting whether a retry was scheduled); the retry
loop makes at most RETRY_MAX_ATTEMPTS=3 attempts, each preceded by the fixed
RETRY_DELAY_SECONDS=5 delay and each sending the coordinator mode/power read
at that attempt; a success on attempt 2 ends the sequence with exactly
attempts 1 and 2; three consecutive failures end it after exactly attempts
1, 2, 3 with no further action. -/
theorem retry_policy :
    (∀ r : Except String Unit, ∃ scheduled : Bool,
      send_command_with_retry r = Except.ok scheduled) ∧
    (∀ (ok : ℕ → Bool) (stAt : ℕ → Mode × ℤ),
      (retry_loop ok stAt).length ≤ RETRY_MAX_ATTEMPTS) ∧
    (∀ (ok : ℕ → Bool) (stAt : ℕ → Mode × ℤ) (a : RetryAttempt),
      a ∈ retry_loop ok stAt →
      a.delay_before = RETRY_DELAY_SECONDS ∧ a.mode = (stAt a.attempt).1 ∧
        a.power = (stAt a.attempt).2) ∧
    (∀ (ok : ℕ → Bool) (stAt : ℕ → Mode × ℤ), ok 1 = false → ok 2 = true →
      List.map (fun a => a.attempt) (retry_loop ok stAt) = [1, 2]) ∧
    (∀ (ok : ℕ → Bool) (stAt : ℕ → Mode × ℤ),
      ok 1 = false → ok 2 = false → ok 3 = false →
      List.map (fun a => a.attempt) (retry_loop ok stAt) = [1, 2, 3]) := by
  refine ⟨?_, ?_, ?_, ?_, ?_⟩
  · intro r
    cases r with
    | ok _ => exact ⟨false, rfl⟩
    | error _ => exact ⟨true, rfl⟩
  · intro ok stAt
    rw [retry_loop_unfold]
    by_cases h1 : ok 1 = true <;> by_cases h2 : ok 2 = true <;>
      by_cases h3 : ok 3 = true <;> simp [h1, h2, h3, RETRY_MAX_ATTEMPTS]
  · intro ok stAt a ha
    rw [retry_loop_unfold] at ha
    by_cases h1 : ok 1 = true <;> by_cases h2 : ok 2 = true <;>
      by_cases h3 : ok 3 = true <;> simp [h1, h2, h3] at ha <;>
      rcases ha with rfl | rfl | rfl <;> exact ⟨rfl, rfl, rfl⟩
  · intro ok stAt h1 h2
    rw [retry_loop_unfold]
    simp [h1, h2]
  · intro ok stAt h1 h2 h3
    rw [retry_loop_unfold]
    simp [h1, h2, h3]

theorem retry_policy_witness :
    (fun n => decide (n = 2)) 1 = false ∧ (fun n => decide (n = 2)) 2 = true ∧
    List.map (fun a => a.attempt)
      (retry_loop (fun n => decide (n = 2)) (fun _ => (Mode.AUTO, 0))) = [1, 2] :=
  ⟨rfl, rfl,
   retry_policy.2.2.2.1 (fun n => decide (n = 2)) (fun _ => (Mode.AUTO, 0)) rfl rfl⟩

/-- Claim C1: for every snapshot on which neither rule 1 nor rule 2 fires and
the surplus trigger holds (grid export beyond surplus_threshold, solar above
surplus_threshold, SOC below surplus_soc_max), regulate returns ChargeSurplus
with power = clamp(grid_power + signed battery power + 100, -max_charge_rate,
-min(100, surplus_threshold)). -/
theorem rule3_surplus_charge (st : State) (m : Mode) (cfg : Config)
    (h1 : ¬(st.is_off_peak = true ∧ OFF_PEAK_CHARGE_START_HOUR ≤ st.hour ∧
      st.hour < OFF_PEAK_CHARGE_END_HOUR ∧
      st.battery_soc < compute_target_soc st.tempo_color st.solar_forecast_kwh))
    (h2 : ¬(m = Mode.CHARGE_OFF_PEAK ∧ st.is_off_peak = true ∧
      compute_target_soc st.tempo_color st.solar_forecast_kwh ≤ st.battery_soc))
    (h3 : st.grid_power < -cfg.surplus_threshold)
    (h4 : cfg.surplus_threshold < st.solar_production)
    (h5 : st.battery_soc < cfg.surplus_soc_max) :
    (regulate st m cfg).mode = Mode.CHARGE_SURPLUS ∧
    (regulate st m cfg).power =
      clamp (st.grid_power + signed_battery_power m st.battery_power_abs +
        CHARGE_SURPLUS_OFFSET) (-cfg.max_charge_rate)
        (-(min 100 cfg.surplus_threshold)) := by
  simp only [regulate]
  rw [if_neg h1, if_neg h2, if_pos ⟨h3, h4, h5⟩]
  exact ⟨rfl, rfl⟩

theorem rule3_surplus_charge_witness :
    ((regulate surplusSnapLow Mode.AUTO defaultConfig).mode = Mode.CHARGE_SURPLUS ∧
     (regulate surplusSnapLow Mode.AUTO defaultConfig).power = -100) ∧
    ((regulate surplusSnapHigh Mode.AUTO defaultConfig).mode = Mode.CHARGE_SURPLUS ∧
     (regulate surplusSnapHigh Mode.AUTO defaultConfig).power = -2500) ∧
    ((regulate endToEndSnap Mode.CHARGE_SURPLUS defaultConfig).mode = Mode.CHARGE_SURPLUS ∧
     (regulate endToEndSnap Mode.CHARGE_SURPLUS defaultConfig).power = -351) ∧
    ((regulate endToEndSnap Mode.AUTO defaultConfig).mode = Mode.CHARGE_SURPLUS ∧
     (regulate endToEndSnap Mode.AUTO defaultConfig).power = -343) := by
  refine ⟨?_, ?_, ?_, ?_⟩
  · have h := rule3_surplus_charge surplusSnapLow Mode.AUTO defaultConfig
      (by decide) (by decide) (by decide) (by decide) (by decide)
    exact ⟨h.1, h.2.trans (by decide)⟩
  · have h := rule3_surplus_charge surplusSnapHigh Mode.AUTO defaultConfig
      (by decide) (by decide) (by decide) (by decide) (by decide)
    exact ⟨h.1, h.2.trans (by decide)⟩
  · have h := rule3_surplus_charge endToEndSnap Mode.CHARGE_SURPLUS defaultConfig
      (by decide) (by decide) (by decide) (by decide) (by decide)
    exact ⟨h.1, h.2.trans (by decide)⟩
  · have h := rule3_surplus_charge endToEndSnap Mode.AUTO defaultConfig
      (by decide) (by decide) (by decide) (by decide) (by decide)
    exact ⟨h.1, h.2.trans (by decide)⟩

/-- Claim C2: regulate evaluates its rules in fixed priority order; whenever
rule 1's trigger (off-peak, hour in the 2-6 charge window, SOC below target)
holds, the outcome is ChargeOffPeak at power -off_peak_charge_rate even when
rule 3's surplus trigger holds at the same time — never ChargeSurplus. -/
theorem rule1_priority_over_rule3 (st : State) (m : Mode) (cfg : Config)
    (h1 : st.is_off_peak = true ∧ OFF_PEAK_CHARGE_START_HOUR ≤ st.hour ∧
      st.hour < OFF_PEAK_CHARGE_END_HOUR ∧
      st.battery_soc < compute_target_soc st.tempo_color st.solar_forecast_kwh)
    (h3 : st.grid_power < -cfg.surplus_threshold ∧
      cfg.surplus_threshold < st.solar_production ∧
      st.battery_soc < cfg.surplus_soc_max) :
    (regulate st m cfg).mode = Mode.CHARGE_OFF_PEAK ∧
    (regulate st m cfg).power = -cfg.off_peak_charge_rate ∧
    (regulate st m cfg).mode ≠ Mode.CHARGE_SURPLUS := by
  simp only [regulate]
  rw [if_pos h1]
  exact ⟨rfl, rfl, by simp⟩

/-- Snapshot satisfying rule 1 and rule 3 simultaneously: off-peak at 03:00
with low SOC and a live solar surplus. -/
def offPeakSurplusSnap : State :=
  { grid_power := -500, solar_production := 600, battery_soc := 10, battery_power_abs := 0
    is_off_peak := true, hour := 3, minute := 0, solar_forecast_kwh := 0
    solar_remaining_kwh := 0, tempo_color := none }

theorem target_soc_none_zero_gt_10 : (10 : ℤ) < compute_target_soc none 0 := by
  rw [show compute_target_soc none 0 = max (pyTrunc (80 - 0 * 3)) 20 from rfl]
  exact lt_of_lt_of_le (by norm_num) (le_max_right _ _)

theorem rule1_priority_over_rule3_witness :
    ((regulate offPeakSurplusSnap Mode.AUTO defaultConfig).mode = Mode.CHARGE_OFF_PEAK ∧
     (regulate offPeakSurplusSnap Mode.AUTO defaultConfig).power = -1500) ∧
    (regulate offPeakSurplusSnap Mode.AUTO defaultConfig).mode ≠ Mode.CHARGE_SURPLUS := by
  have h := rule1_priority_over_rule3 offPeakSurplusSnap Mode.AUTO defaultConfig
    ⟨by decide, by decide, by decide, target_soc_none_zero_gt_10⟩
    ⟨by decide, by decide, by decide⟩
  exact ⟨⟨h.1, h.2.1.trans (by decide)⟩, h.2.2⟩

/-- Claim C9: whenever regulate returns a Decision with mode Discharge, its
power is at least config.discharge_min_power — through rule 4's explicit
candidate check and through the no-change rule 8, whose Discharge case is
only reachable when rule 6 did not fire. -/
theorem discharge_power_at_least_min (st : State) (m : Mode) (cfg : Config)
    (h0 : 0 ≤ st.battery_power_abs)
    (hd : (regulate st m cfg).mode = Mode.DISCHARGE) :
    cfg.discharge_min_power ≤ (regulate st m cfg).power := by
  simp only [regulate] at hd ⊢
  split_ifs at hd ⊢ with h1 h2 h3 h4 h5 h6 h7 h8 h9
  all_goals first
    | exact h4.2
    | (simp at hd
       subst hd
       first
         | (have hb := (not_and.mp h6) rfl
            push_neg at hb
            obtain ⟨-, -, habs⟩ := hb
            simpa using habs)
         | (simp at h8
            done)
         | (rcases h9 with h | h <;> simp at h))

/-- Config with the const.py defaults except base_load_w = 0, giving an
always-minimal reserve during peak hours. -/
def lightConfig : Config :=
  { battery_capacity_wh := 5120
    base_load_w := 0
    off_peak_charge_rate := 1500
    max_charge_rate := 2500
    max_discharge_rate := 2500
    surplus_threshold := 100
    surplus_soc_max := 95
    discharge_min_power := 50 }

theorem reserve_peak_no_load_eval : compute_reserve_soc false 14 0 0 0 5120 = 10 := by
  simp only [compute_reserve_soc]
  rw [if_neg (by decide)]
  rw [show max ((22 : ℚ) - (((14 : ℤ) : ℚ) + ((0 : ℤ) : ℚ) / 60)) 0 = 8 by
    rw [max_eq_left] <;> push_cast <;> norm_num]
  rw [show max ((8 : ℚ) * ((0 : ℤ) : ℚ) - (0 : ℚ) * 1000) 0 = 0 by
    rw [max_eq_right] <;> push_cast <;> norm_num]
  rw [zero_div, zero_mul, pyRound_zero]
  decide

/-- Snapshot during peak hours importing 500 W with the battery discharging
100 W, from which rule 4 commands a discharge. -/
def dischargeSnap : State :=
  { grid_power := 500, solar_production := 0, battery_soc := 60, battery_power_abs := 100
    is_off_peak := false, hour := 14, minute := 0, solar_forecast_kwh := 0
    solar_remaining_kwh := 0, tempo_color := none }

theorem regulate_dischargeSnap_mode :
    (regulate dischargeSnap Mode.AUTO lightConfig).mode = Mode.DISCHARGE := by
  simp only [regulate, dischargeSnap, lightConfig, reserve_peak_no_load_eval,
    signed_battery_power, clamp]
  decide

theorem discharge_power_at_least_min_witness :
    (0 ≤ dischargeSnap.battery_power_abs ∧
     (regulate dischargeSnap Mode.AUTO lightConfig).mode = Mode.DISCHARGE) ∧
    lightConfig.discharge_min_power ≤ (regulate dischargeSnap Mode.AUTO lightConfig).power :=
  ⟨⟨by decide, regulate_dischargeSnap_mode⟩,
   discharge_power_at_least_min dischargeSnap Mode.AUTO lightConfig (by decide)
     regulate_dischargeSnap_mode⟩

/-- Claim C10: for every snapshot with battery_power_abs ≥ 0 and every config
with off_peak_charge_rate > 0, max_charge_rate > 0 and surplus_threshold > 0,
the Decision returned by regulate has a power sign consistent with its mode:
0 for Auto, ≤ 0 for ChargeSurplus and ChargeOffPeak, ≥ 0 for Discharge. -/
theorem decision_power_sign_consistency (st : State) (m : Mode) (cfg : Config)
    (h0 : 0 ≤ st.battery_power_abs) (hr : 0 < cfg.off_peak_charge_rate)
    (hc : 0 < cfg.max_charge_rate) (ht : 0 < cfg.surplus_threshold) :
    ((regulate st m cfg).mode = Mode.AUTO → (regulate st m cfg).power = 0) ∧
    (((regulate st m cfg).mode = Mode.CHARGE_SURPLUS ∨
      (regulate st m cfg).mode = Mode.CHARGE_OFF_PEAK) → (regulate st m cfg).power ≤ 0) ∧
    ((regulate st m cfg).mode = Mode.DISCHARGE → 0 ≤ (regulate st m cfg).power) := by
  simp only [regulate, clamp]
  split_ifs with h1 h2 h3 h4 h5 h6 h7 h8 h9
  all_goals dsimp only
  · exact ⟨fun ha => absurd ha (by decide), fun _ => by omega, fun hd => absurd hd (by decide)⟩
  · exact ⟨fun _ => rfl, fun _ => le_refl 0, fun _ => le_refl 0⟩
  · exact ⟨fun ha => absurd ha (by decide), fun _ => by omega, fun hd => absurd hd (by decide)⟩
  · exact ⟨fun ha => absurd ha (by decide), fun hb => absurd hb (by decide), fun _ => by omega⟩
  · exact ⟨fun _ => rfl, fun _ => le_refl 0, fun _ => le_refl 0⟩
  · exact ⟨fun _ => rfl, fun _ => le_refl 0, fun _ => le_refl 0⟩
  · exact ⟨fun _ => rfl, fun _ => le_refl 0, fun _ => le_refl 0⟩
  · exact ⟨fun _ => rfl, fun _ => le_refl 0, fun _ => le_refl 0⟩
  · exact ⟨fun ha => absurd ha h8, fun _ => by omega,
      fun hd => absurd hd (by rcases h9 with rfl | rfl <;> decide)⟩
  · exact ⟨fun ha => absurd ha h8, fun hb => absurd (hb.elim Or.inr Or.inl) h9,
      fun _ => by omega⟩

theorem decision_power_sign_consistency_witness :
    ((0 : ℤ) ≤ surplusSnapLow.battery_power_abs ∧
     0 < defaultConfig.off_peak_charge_rate ∧
     0 < defaultConfig.max_charge_rate ∧
     0 < defaultConfig.surplus_threshold) ∧
    (((regulate surplusSnapLow Mode.AUTO defaultConfig).mode = Mode.CHARGE_SURPLUS ∨
      (regulate surplusSnapLow Mode.AUTO defaultConfig).mode = Mode.CHARGE_OFF_PEAK) →
      (regulate surplusSnapLow Mode.AUTO defaultConfig).power ≤ 0) :=
  ⟨⟨by decide, by decide, by decide, by decide⟩,
   (decision_power_sign_consistency surplusSnapLow Mode.AUTO defaultConfig (by decide)
      (by decide) (by decide) (by decide)).2.1⟩
